import Mathlib

/-!
Verification of the course-catalog application in src/app.py.

The program is a small Flask application. Its core is:
  - load_courses / save_courses: a JSON-file-backed course store;
  - course_details: linear scan of the stored list by course code;
  - add_course: POST handler that builds a course dict from the form,
    checks required fields for emptiness, and either appends the record
    to the store or flashes an error and redirects.

The embedding below models Python/JSON values with an explicit Json type,
the catalog file as an optional file content (parsed JSON value, or text
that is not valid JSON), and each fallible Python computation as an
Except value, so that raised exceptions (KeyError, JSONDecodeError,
AttributeError, TypeError) are explicit.
-/

namespace CourseApp

/-- A course record: the nine form fields read by add_course in src/app.py
(lines 166-176), in the insertion order of the Python dict literal. -/
structure Course where
  code : String
  name : String
  instructor : String
  semester : String
  schedule : String
  classroom : String
  prerequisites : String
  grading : String
  description : String
deriving Repr, DecidableEq

/-- The (field name, value) pairs of the dict built in add_course, in the
insertion order of the dict literal, which is the iteration order of
course.items() in Python. -/
def Course.fields (c : Course) : List (String × String) :=
  [("code", c.code), ("name", c.name), ("instructor", c.instructor),
   ("semester", c.semester), ("schedule", c.schedule), ("classroom", c.classroom),
   ("prerequisites", c.prerequisites), ("grading", c.grading),
   ("description", c.description)]

/-- The nine form-field names, in the order the handler reads them. -/
def fieldNames : List String :=
  ["code", "name", "instructor", "semester", "schedule", "classroom",
   "prerequisites", "grading", "description"]

/-- src/app.py line 179: the list comprehension
missing_fields = [field for field, value in course.items() if not value and field!="description"].
Python string truthiness makes the test "not value" equivalent to value == "". -/
def missing_fields (c : Course) : List String :=
  ((c.fields).filter (fun fv => fv.2 == "" && fv.1 != "description")).map Prod.fst

/-- The validation outcome named by the specification. -/
inductive ValidationResult where
  | Valid : ValidationResult
  | Invalid : List String → ValidationResult
deriving Repr, DecidableEq

/-- The validation step of add_course, packaged as the function the
specification calls validateNewCourse: Invalid exactly when the
missing_fields list of src/app.py line 179 is non-empty. -/
def validateNewCourse (c : Course) : ValidationResult :=
  if missing_fields c = [] then ValidationResult.Valid
  else ValidationResult.Invalid (missing_fields c)

/-- The eight required (field name, value) pairs, in the required-field
order of the specification: code, name, instructor, semester, schedule,
classroom, prerequisites, grading. Used to state what missingFields must
contain; description is exempt. -/
def requiredPairs (c : Course) : List (String × String) :=
  [("code", c.code), ("name", c.name), ("instructor", c.instructor),
   ("semester", c.semester), ("schedule", c.schedule), ("classroom", c.classroom),
   ("prerequisites", c.prerequisites), ("grading", c.grading)]

/-- JSON values, the values json.load can produce and json.dump can consume. -/
inductive Json where
  | null : Json
  | bool : Bool → Json
  | num : Int → Json
  | str : String → Json
  | arr : List Json → Json
  | obj : List (String × Json) → Json

/-- The Python exceptions the modelled code can raise. -/
inductive PyError where
  | keyError : String → PyError
  | jsonDecodeError : PyError
  | attributeError : PyError
  | typeError : PyError
deriving Repr, DecidableEq

/-- Modelled from the spec: src/app.py delegates parsing and serialization
of the catalog file to the external json library (json.load in
load_courses, json.dump in save_courses), so the file content is modelled
at the parsed-value level: either the serialization of a JSON value, or
text that is not valid JSON (on which json.load raises). -/
inductive FileContent where
  | validJson : Json → FileContent
  | invalid : String → FileContent

/-- The state of the catalog file: none when the file does not exist. -/
abbrev FileState := Option FileContent

/-- src/app.py lines 59-63: load_courses returns the empty list when the
file does not exist, and otherwise returns json.load of the file content,
which raises a JSONDecodeError on content that is not valid JSON. -/
def load_courses : FileState → Except PyError Json
  | none => Except.ok (Json.arr [])
  | some (FileContent.invalid _) => Except.error PyError.jsonDecodeError
  | some (FileContent.validJson j) => Except.ok j

/-- src/app.py lines 66-71: save_courses loads the existing courses,
appends the new record, and rewrites the whole file. Calling .append on a
loaded value that is not a list raises an AttributeError in Python. -/
def save_courses (st : FileState) (data : Json) : Except PyError FileState := do
  let courses ← load_courses st
  match courses with
  | Json.arr items => pure (some (FileContent.validJson (Json.arr (items ++ [data]))))
  | _ => Except.error PyError.attributeError

/-- Python equality between a JSON value and a string: true exactly when
the value is that string (comparing a non-string to a string is False,
not an error). Used for the comparison course[code_key] == code. -/
def jsonEqStr : Json → String → Bool
  | Json.str s, t => s == t
  | _, _ => false

/-- Python dict subscript on a JSON value: a KeyError on a dict without
the key, a TypeError on a non-dict. -/
def dictGet (j : Json) (k : String) : Except PyError Json :=
  match j with
  | Json.obj fields =>
    match fields.lookup k with
    | some v => Except.ok v
    | none => Except.error (PyError.keyError k)
  | _ => Except.error PyError.typeError

/-- src/app.py line 126: next((course for course in courses if
course[code_key] == code), None). The generator evaluates the subscript on
each element in order, so a malformed element raises before later
elements are inspected. -/
def findCourse (code : String) : List Json → Except PyError (Option Json)
  | [] => Except.ok none
  | item :: rest => do
    let v ← dictGet item "code"
    if jsonEqStr v code then pure (some item) else findCourse code rest

/-- The outcome a handler hands to Flask: a redirect to an endpoint, or a
rendered template (with the course passed to it, when any). -/
inductive Response where
  | redirect : String → Response
  | render : String → Option Json → Response

/-- What a handler produces: the resulting file state, the flashed
(message, category) pairs in order, and the response. -/
structure HandlerResult where
  state : FileState
  flashes : List (String × String)
  response : Response

/-- src/app.py lines 119-147: the course_details route. Loads the courses,
scans for the first one whose code equals the requested code; on no match
flashes an error and redirects to course_catalog, on a match renders
course_details.html with the course. Iterating a loaded value that is not
a list is modelled as a TypeError. A found course is a non-empty dict, so
the Python truthiness test "if not course" is equivalent to the
None test modelled here. -/
def course_details (code : String) (st : FileState) : Except PyError HandlerResult := do
  let courses ← load_courses st
  match courses with
  | Json.arr items => do
    let found ← findCourse code items
    match found with
    | none =>
      pure ⟨st,
        [("No course found with code \x27" ++ code ++ "\x27.", "error")],
        Response.redirect "course_catalog"⟩
    | some course => pure ⟨st, [], Response.render "course_details.html" (some course)⟩
  | _ => Except.error PyError.typeError

/-- HTTP method of a request to the add_course route. -/
inductive Method where
  | GET : Method
  | POST : Method

/-- Subscript on request.form: Python raises a KeyError (Werkzeug a
BadRequestKeyError, a KeyError subclass) when the key is absent. The form
is a list of (name, value) pairs; lookup takes the first match. -/
def formGet (form : List (String × String)) (k : String) : Except PyError String :=
  match form.lookup k with
  | some v => Except.ok v
  | none => Except.error (PyError.keyError k)

/-- src/app.py lines 166-176: the dict literal built from request.form.
The nine subscripts are evaluated in the order of the literal, so the
first absent key raises before validation runs. -/
def build_course (form : List (String × String)) : Except PyError Course := do
  let vcode ← formGet form "code"
  let vname ← formGet form "name"
  let vinstructor ← formGet form "instructor"
  let vsemester ← formGet form "semester"
  let vschedule ← formGet form "schedule"
  let vclassroom ← formGet form "classroom"
  let vprerequisites ← formGet form "prerequisites"
  let vgrading ← formGet form "grading"
  let vdescription ← formGet form "description"
  pure ⟨vcode, vname, vinstructor, vsemester, vschedule, vclassroom,
        vprerequisites, vgrading, vdescription⟩

/-- The JSON object written for a course: the dict of add_course as
json.dump serializes it, keys in insertion order. -/
def courseToJson (c : Course) : Json :=
  Json.obj [("code", Json.str c.code), ("name", Json.str c.name),
    ("instructor", Json.str c.instructor), ("semester", Json.str c.semester),
    ("schedule", Json.str c.schedule), ("classroom", Json.str c.classroom),
    ("prerequisites", Json.str c.prerequisites), ("grading", Json.str c.grading),
    ("description", Json.str c.description)]

/-- String content of a JSON value, when it is a string. -/
def jsonStr? : Json → Option String
  | Json.str s => some s
  | _ => none

/-- Reads a course record back from a JSON value: an object carrying the
nine fields with string values. Used to state that stored fields survive
the round trip intact. -/
def courseFromJson (j : Json) : Option Course :=
  match j with
  | Json.obj fields => do
    let vcode ← fields.lookup "code" >>= jsonStr?
    let vname ← fields.lookup "name" >>= jsonStr?
    let vinstructor ← fields.lookup "instructor" >>= jsonStr?
    let vsemester ← fields.lookup "semester" >>= jsonStr?
    let vschedule ← fields.lookup "schedule" >>= jsonStr?
    let vclassroom ← fields.lookup "classroom" >>= jsonStr?
    let vprerequisites ← fields.lookup "prerequisites" >>= jsonStr?
    let vgrading ← fields.lookup "grading" >>= jsonStr?
    let vdescription ← fields.lookup "description" >>= jsonStr?
    pure ⟨vcode, vname, vinstructor, vsemester, vschedule, vclassroom,
          vprerequisites, vgrading, vdescription⟩
  | _ => none

/-- The file state holding exactly the given catalog of courses. -/
def storedState (l : List Course) : FileState :=
  some (FileContent.validJson (Json.arr (l.map courseToJson)))

/-- A JSON value of the expected stored-course shape: an object whose
nine expected fields are present with string values. -/
def isCourseObject (j : Json) : Bool :=
  (courseFromJson j).isSome

/-- A JSON value of the expected catalog shape: an array of well-shaped
course objects. -/
def wellShapedCatalog : Json → Bool
  | Json.arr items => items.all isCourseObject
  | _ => false

/-- src/app.py lines 151-201: the add_course route. On GET it renders the
empty form. On POST it builds the course dict from request.form (raising
a KeyError on an absent field name), computes missing_fields, and either
flashes the missing-fields error and redirects back to the form, or
appends the record to the store, flashes success, and redirects to the
catalog. Python list truthiness makes the test "if missing_fields"
equivalent to the non-emptiness test modelled here. -/
def add_course (method : Method) (form : List (String × String)) (st : FileState) :
    Except PyError HandlerResult :=
  match method with
  | Method.GET => Except.ok ⟨st, [], Response.render "add_course.html" none⟩
  | Method.POST => do
    let c ← build_course form
    if missing_fields c ≠ [] then
      pure ⟨st,
        [("Missing fields: " ++ String.intercalate ", " (missing_fields c), "error")],
        Response.redirect "add_course"⟩
    else do
      let st2 ← save_courses st (courseToJson c)
      pure ⟨st2,
        [("Course \x27" ++ c.code ++ "\x27 added successfully!", "success")],
        Response.redirect "course_catalog"⟩

/-- load_courses with the file state threaded explicitly: src/app.py opens
COURSE_FILE in read mode only, so a read leaves the file state unchanged. -/
def load_courses_st (st : FileState) : Except PyError Json × FileState :=
  (load_courses st, st)

/-- Claim C2 as stated: loadAll yields the empty catalog on an absent
file, and fails whenever the existing file content is not valid JSON or
is valid JSON that is not an array of well-shaped course objects. -/
def C2_as_stated : Prop :=
  load_courses none = Except.ok (Json.arr []) ∧
  ∀ content : FileContent,
    (match content with
     | FileContent.invalid _ => True
     | FileContent.validJson j => wellShapedCatalog j = false) →
    ∃ e, load_courses (some content) = Except.error e

/-- The sample course of specification Scenario 2. -/
def sampleCourse : Course :=
  ⟨"CS203", "Systems", "A", "F24", "MWF", "101", "none", "A-F", ""⟩

/-- A second course sharing the code of sampleCourse, to exercise
first-match lookup among duplicates. -/
def dupCourse : Course :=
  ⟨"CS203", "Systems II", "B", "S25", "TTh", "102", "CS203", "Pass", "dup"⟩

/-- A course with a different code. -/
def otherCourse : Course :=
  ⟨"CS101", "Intro", "C", "F24", "MWF", "103", "none", "A-F", ""⟩

/-- A submission whose required fields are all whitespace-only. -/
def spaceCourse : Course :=
  ⟨" ", " ", " ", " ", " ", " ", " ", " ", ""⟩

/-- The Scenario 3 submission: instructor left empty. -/
def noInstructorCourse : Course :=
  ⟨"CS203", "Systems", "", "F24", "MWF", "101", "none", "A-F", ""⟩

/-- A submission missing two required fields, to exercise the order of
missingFields. -/
def badCourse : Course :=
  ⟨"", "Systems", "", "F24", "MWF", "101", "none", "A-F", "x"⟩

/-- A form that carries eight of the nine field names: instructor is
absent as a key, not merely empty. -/
def formMissingInstructor : List (String × String) :=
  [("code", "CS203"), ("name", "Systems"), ("semester", "F24"),
   ("schedule", "MWF"), ("classroom", "101"), ("prerequisites", "none"),
   ("grading", "A-F"), ("description", "")]

/-- The missing-fields list of the handler equals the empty required
fields, filtered out of the required-field list in its order. -/
theorem missing_fields_spec (c : Course) :
    missing_fields c = ((requiredPairs c).filter (fun fv => fv.2 == "")).map Prod.fst := by
  simp [missing_fields, Course.fields, requiredPairs, List.filter_cons]

/-- missing_fields never mentions description, whatever its value. -/
theorem missing_fields_ignores_description (c : Course) (d : String) :
    missing_fields ⟨c.code, c.name, c.instructor, c.semester, c.schedule,
      c.classroom, c.prerequisites, c.grading, d⟩ = missing_fields c := by
  simp [missing_fields, Course.fields, List.filter_cons]

/-- missing_fields is empty exactly when every required field is non-empty. -/
theorem missing_fields_eq_nil_iff (c : Course) :
    missing_fields c = [] ↔
      (c.code ≠ "" ∧ c.name ≠ "" ∧ c.instructor ≠ "" ∧ c.semester ≠ "" ∧
       c.schedule ≠ "" ∧ c.classroom ≠ "" ∧ c.prerequisites ≠ "" ∧ c.grading ≠ "") := by
  simp [missing_fields, Course.fields, List.filter_eq_nil_iff, and_assoc]

/-- validateNewCourse yields Valid exactly when missing_fields is empty. -/
theorem validateNewCourse_valid_iff (c : Course) :
    validateNewCourse c = ValidationResult.Valid ↔ missing_fields c = [] := by
  unfold validateNewCourse
  split <;> simp_all

/-- validateNewCourse yields Invalid ms exactly for the non-empty
missing_fields list. -/
theorem validateNewCourse_invalid (c : Course) (ms : List String)
    (h : validateNewCourse c = ValidationResult.Invalid ms) :
    missing_fields c = ms ∧ missing_fields c ≠ [] := by
  unfold validateNewCourse at h
  split at h
  · exact absurd h (by simp)
  · exact ⟨(ValidationResult.Invalid.injEq _ _).mp h, by assumption⟩

/-- Claim C1: for every mapping of the nine form-field names to strings,
validateNewCourse returns Valid iff each of the eight required fields
(code, name, instructor, semester, schedule, classroom, prerequisites,
grading) is non-empty, regardless of the value of description; and when
it returns Invalid, missingFields is exactly the list of empty required
fields in the iteration order of the required-field list. -/
theorem C1_validateNewCourse (c : Course) :
    (validateNewCourse c = ValidationResult.Valid ↔
      (c.code ≠ "" ∧ c.name ≠ "" ∧ c.instructor ≠ "" ∧ c.semester ≠ "" ∧
       c.schedule ≠ "" ∧ c.classroom ≠ "" ∧ c.prerequisites ≠ "" ∧ c.grading ≠ "")) ∧
    (∀ d : String,
      validateNewCourse ⟨c.code, c.name, c.instructor, c.semester, c.schedule,
        c.classroom, c.prerequisites, c.grading, d⟩ = validateNewCourse c) ∧
    (∀ ms, validateNewCourse c = ValidationResult.Invalid ms →
      ms = ((requiredPairs c).filter (fun fv => fv.2 == "")).map Prod.fst) := by
  refine ⟨?_, ?_, ?_⟩
  · rw [validateNewCourse_valid_iff]
    exact missing_fields_eq_nil_iff c
  · intro d
    unfold validateNewCourse
    rw [missing_fields_ignores_description]
  · intro ms h
    rw [← (validateNewCourse_invalid c ms h).1, missing_fields_spec]

/-- Witness for C1 at a concrete submission missing code and instructor:
validation is Invalid with the two empty required fields listed in
required-field order, and the order matches the filtered required list. -/
theorem C1_witness :
    validateNewCourse badCourse = ValidationResult.Invalid ["code", "instructor"] ∧
    ["code", "instructor"] =
      ((requiredPairs badCourse).filter (fun fv => fv.2 == "")).map Prod.fst ∧
    validateNewCourse badCourse ≠ ValidationResult.Valid :=
  ⟨by decide,
   (C1_validateNewCourse badCourse).2.2 ["code", "instructor"] (by decide),
   by decide⟩

/-- Claim C2, counterexample: the claim as stated is false. A file whose
content is the valid JSON value 42 is not an array of course objects, yet
load_courses returns it successfully instead of failing: json.load only
raises on text that is not valid JSON, never on shape. -/
theorem C2_counterexample : ¬ C2_as_stated := by
  intro h
  obtain ⟨e, he⟩ := h.2 (FileContent.validJson (Json.num 42)) rfl
  simp [load_courses] at he

/-- Claim C2, amended: loadAll returns the empty sequence when the file
does not exist; when the file exists it fails with an unhandled parse
error exactly when the content is not valid JSON; valid JSON of any
shape, well-formed catalog or not, is returned as parsed. -/
theorem C2_load_contract :
    load_courses none = Except.ok (Json.arr []) ∧
    (∀ s : String,
      load_courses (some (FileContent.invalid s)) = Except.error PyError.jsonDecodeError) ∧
    (∀ j : Json, load_courses (some (FileContent.validJson j)) = Except.ok j) :=
  ⟨rfl, fun _ => rfl, fun _ => rfl⟩

/-- save_courses on a stored catalog appends the record and rewrites the
file with the extended array. -/
theorem save_courses_stored (prev : List Course) (j : Json) :
    save_courses (storedState prev) j =
      Except.ok (some (FileContent.validJson (Json.arr (prev.map courseToJson ++ [j])))) := by
  simp [save_courses, load_courses, storedState, bind, Except.bind, pure, Except.pure]

/-- Claim C3: appendOne followed by loadAll yields the previous sequence
with the new course at the end, and every one of the nine fields of the
appended record survives the round trip intact under string equality. -/
theorem C3_append_roundtrip (prev : List Course) (c : Course) :
    save_courses (storedState prev) (courseToJson c) = Except.ok (storedState (prev ++ [c])) ∧
    load_courses (storedState (prev ++ [c])) =
      Except.ok (Json.arr (prev.map courseToJson ++ [courseToJson c])) ∧
    courseFromJson (courseToJson c) = some c := by
  refine ⟨?_, by simp [load_courses, storedState], rfl⟩
  rw [save_courses_stored]
  simp [storedState]

/-- Claim C8: with no intervening write, two loads of the same file state
return the same parsed value, and a load leaves the file state unchanged. -/
theorem C8_load_idempotent (st : FileState) :
    (load_courses_st st).1 = (load_courses_st (load_courses_st st).2).1 ∧
    (load_courses_st st).2 = st :=
  ⟨rfl, rfl⟩

/-- On a catalog of stored course objects, the scan of course_details
computes exactly the first-match search over the course list. -/
theorem findCourse_map (code : String) (S : List Course) :
    findCourse code (S.map courseToJson) =
      Except.ok (Option.map courseToJson (S.find? (fun c => c.code == code))) := by
  induction S with
  | nil => rfl
  | cons x xs ih =>
    have hget : dictGet (courseToJson x) "code" = Except.ok (Json.str x.code) := rfl
    simp only [List.map_cons, findCourse, hget, bind, Except.bind, jsonEqStr, List.find?_cons]
    by_cases h : x.code = code
    · simp [h, pure, Except.pure]
    · have hb : (x.code == code) = false := by simp [h]
      simp [hb, ih]

/-- find? at a code that occurs in the list returns the first element
carrying that code: its index precedes every other occurrence. -/
theorem find?_code_first (code : String) (S : List Course) (hex : ∃ x ∈ S, x.code = code) :
    ∃ i, ∃ hi : i < S.length,
      S.find? (fun c => c.code == code) = some (S.get ⟨i, hi⟩) ∧
      (S.get ⟨i, hi⟩).code = code ∧
      ∀ j, ∀ hj : j < S.length, j < i → (S.get ⟨j, hj⟩).code ≠ code := by
  induction S with
  | nil => simp at hex
  | cons y ys ih =>
    by_cases h : y.code = code
    · refine ⟨0, by simp, ?_, ?_, ?_⟩
      · simp [List.find?_cons, h]
      · simpa using h
      · intro j hj hj0
        exact absurd hj0 (Nat.not_lt_zero j)
    · have hex2 : ∃ x ∈ ys, x.code = code := by
        rcases hex with ⟨x, hx, hxc⟩
        rcases List.mem_cons.mp hx with rfl | hmem
        · exact absurd hxc h
        · exact ⟨x, hmem, hxc⟩
      rcases ih hex2 with ⟨i, hi, hfind, hcode, hfirst⟩
      have hb : (y.code == code) = false := by simp [h]
      refine ⟨i + 1, Nat.succ_lt_succ hi, ?_, ?_, ?_⟩
      · simp [List.find?_cons, hb, hfind]
      · simpa using hcode
      · intro j hj hlt
        cases j with
        | zero => simpa using h
        | succ k =>
          have hk : k < ys.length := Nat.lt_of_succ_lt_succ hj
          have hne : (ys.get ⟨k, hk⟩).code ≠ code := hfirst k hk (Nat.lt_of_succ_lt_succ hlt)
          simpa using hne

/-- Claim C4: for every stored course sequence S and every course x in S,
the scan of course_details at code x.code finds the first element of S
whose code equals x.code under exact string comparison, even when several
elements share that code. -/
theorem C4_findByCode_first (S : List Course) (x : Course) (hx : x ∈ S) :
    ∃ i, ∃ hi : i < S.length,
      findCourse x.code (S.map courseToJson) =
        Except.ok (some (courseToJson (S.get ⟨i, hi⟩))) ∧
      (S.get ⟨i, hi⟩).code = x.code ∧
      ∀ j, ∀ hj : j < S.length, j < i → (S.get ⟨j, hj⟩).code ≠ x.code := by
  rcases find?_code_first x.code S ⟨x, hx, rfl⟩ with ⟨i, hi, hfind, hcode, hfirst⟩
  refine ⟨i, hi, ?_, hcode, hfirst⟩
  rw [findCourse_map, hfind]
  rfl

/-- Witness for C4: in a catalog where two courses share the code CS203,
the lookup for the second one still reports the first occurrence. -/
theorem C4_witness :
    dupCourse ∈ [otherCourse, sampleCourse, dupCourse] ∧
    ∃ i, ∃ hi : i < ([otherCourse, sampleCourse, dupCourse] : List Course).length,
      findCourse dupCourse.code ([otherCourse, sampleCourse, dupCourse].map courseToJson) =
        Except.ok (some (courseToJson ([otherCourse, sampleCourse, dupCourse].get ⟨i, hi⟩))) ∧
      (([otherCourse, sampleCourse, dupCourse] : List Course).get ⟨i, hi⟩).code = dupCourse.code ∧
      ∀ j, ∀ hj : j < ([otherCourse, sampleCourse, dupCourse] : List Course).length,
        j < i → (([otherCourse, sampleCourse, dupCourse] : List Course).get ⟨j, hj⟩).code ≠ dupCourse.code :=
  ⟨by decide, C4_findByCode_first [otherCourse, sampleCourse, dupCourse] dupCourse (by decide)⟩

/-- Claim C5: when no element of the stored sequence has the requested
code, the scan of course_details returns no course. -/
theorem C5_findByCode_notfound (S : List Course) (code : String)
    (h : ∀ x ∈ S, x.code ≠ code) :
    findCourse code (S.map courseToJson) = Except.ok none := by
  rw [findCourse_map]
  have hn : S.find? (fun c => c.code == code) = none :=
    List.find?_eq_none.mpr (fun a ha => by simpa using h a ha)
  rw [hn]
  rfl

/-- Witness for C5: the code ZZ999 matches nothing in a two-course catalog. -/
theorem C5_witness :
    (∀ x ∈ ([sampleCourse, otherCourse] : List Course), x.code ≠ "ZZ999") ∧
    findCourse "ZZ999" ([sampleCourse, otherCourse].map courseToJson) = Except.ok none :=
  ⟨by decide, C5_findByCode_notfound [sampleCourse, otherCourse] "ZZ999" (by decide)⟩

/-- Claim C7: on a stored catalog with no course matching the requested
code, course_details flashes the not-found message with the requested
code interpolated and redirects to the catalog view, leaving the store
untouched; on a match it renders the detail view with the found course. -/
theorem C7_course_details_contract (code : String) (S : List Course) :
    (S.find? (fun c => c.code == code) = none →
      course_details code (storedState S) =
        Except.ok ⟨storedState S,
          [("No course found with code \x27" ++ code ++ "\x27.", "error")],
          Response.redirect "course_catalog"⟩) ∧
    (∀ c, S.find? (fun c2 => c2.code == code) = some c →
      course_details code (storedState S) =
        Except.ok ⟨storedState S, [],
          Response.render "course_details.html" (some (courseToJson c))⟩) := by
  constructor
  · intro hnone
    simp [course_details, load_courses, storedState, bind, Except.bind, findCourse_map,
          hnone, pure, Except.pure]
  · intro c hc
    simp [course_details, load_courses, storedState, bind, Except.bind, findCourse_map,
          hc, pure, Except.pure]

/-- Witness for C7: the code ZZ999 against a one-course catalog redirects
with the not-found flash; the code CS203 renders the detail view with the
stored course. -/
theorem C7_witness :
    course_details "ZZ999" (storedState [sampleCourse]) =
      Except.ok ⟨storedState [sampleCourse],
        [("No course found with code \x27" ++ "ZZ999" ++ "\x27.", "error")],
        Response.redirect "course_catalog"⟩ ∧
    course_details "CS203" (storedState [sampleCourse]) =
      Except.ok ⟨storedState [sampleCourse], [],
        Response.render "course_details.html" (some (courseToJson sampleCourse))⟩ :=
  ⟨(C7_course_details_contract "ZZ999" [sampleCourse]).1 (by decide),
   (C7_course_details_contract "CS203" [sampleCourse]).2 sampleCourse (by decide)⟩

/-- build_course applied to the field list of a course rebuilds that
course: every form key is present, so no lookup raises. -/
theorem build_course_fields (c : Course) : build_course c.fields = Except.ok c := rfl

/-- Claim C6: on a POST whose validation result is Invalid, add_course
leaves the stored catalog unchanged, flashes the message beginning with
the text Missing fields: followed by the comma-joined missing field
names, and redirects back to the add-course form. -/
theorem C6_add_course_invalid (c : Course) (st : FileState) (ms : List String)
    (h : validateNewCourse c = ValidationResult.Invalid ms) :
    add_course Method.POST c.fields st =
      Except.ok ⟨st,
        [("Missing fields: " ++ String.intercalate ", " ms, "error")],
        Response.redirect "add_course"⟩ := by
  obtain ⟨hms, hne⟩ := validateNewCourse_invalid c ms h
  subst hms
  simp [add_course, build_course_fields, bind, Except.bind, hne, pure, Except.pure]

/-- Witness for C6: the Scenario 3 submission omitting instructor leaves
an empty store unchanged, flashes the single missing field, and
redirects back to the form. -/
theorem C6_witness :
    validateNewCourse noInstructorCourse = ValidationResult.Invalid ["instructor"] ∧
    add_course Method.POST noInstructorCourse.fields (storedState []) =
      Except.ok ⟨storedState [],
        [("Missing fields: " ++ String.intercalate ", " ["instructor"], "error")],
        Response.redirect "add_course"⟩ :=
  ⟨by decide,
   C6_add_course_invalid noInstructorCourse (storedState []) ["instructor"] (by decide)⟩

/-- Claim C9: a POST whose form lacks one of the nine field names as a
key fails with a KeyError while building the course dict, before
validation runs: the handler produces no flash, no redirect, and no
write to the store. -/
theorem C9_missing_form_key (form : List (String × String)) (st : FileState)
    (h : ∃ f ∈ fieldNames, form.lookup f = none) :
    ∃ k, add_course Method.POST form st = Except.error (PyError.keyError k) := by
  suffices hb : ∃ k, build_course form = Except.error (PyError.keyError k) by
    obtain ⟨k, hk⟩ := hb
    exact ⟨k, by simp [add_course, hk, bind, Except.bind]⟩
  rcases hc : form.lookup "code" with _ | v1
  · exact ⟨"code", by simp [build_course, formGet, hc, bind, Except.bind]⟩
  rcases hn : form.lookup "name" with _ | v2
  · exact ⟨"name", by simp [build_course, formGet, hc, hn, bind, Except.bind]⟩
  rcases hi : form.lookup "instructor" with _ | v3
  · exact ⟨"instructor", by simp [build_course, formGet, hc, hn, hi, bind, Except.bind]⟩
  rcases hs : form.lookup "semester" with _ | v4
  · exact ⟨"semester", by simp [build_course, formGet, hc, hn, hi, hs, bind, Except.bind]⟩
  rcases hh : form.lookup "schedule" with _ | v5
  · exact ⟨"schedule", by simp [build_course, formGet, hc, hn, hi, hs, hh, bind, Except.bind]⟩
  rcases hl : form.lookup "classroom" with _ | v6
  · exact ⟨"classroom", by simp [build_course, formGet, hc, hn, hi, hs, hh, hl, bind, Except.bind]⟩
  rcases hp : form.lookup "prerequisites" with _ | v7
  · exact ⟨"prerequisites",
      by simp [build_course, formGet, hc, hn, hi, hs, hh, hl, hp, bind, Except.bind]⟩
  rcases hg : form.lookup "grading" with _ | v8
  · exact ⟨"grading",
      by simp [build_course, formGet, hc, hn, hi, hs, hh, hl, hp, hg, bind, Except.bind]⟩
  rcases hd : form.lookup "description" with _ | v9
  · exact ⟨"description",
      by simp [build_course, formGet, hc, hn, hi, hs, hh, hl, hp, hg, hd, bind, Except.bind]⟩
  exfalso
  rcases h with ⟨f, hf, hnone⟩
  simp only [fieldNames, List.mem_cons, List.not_mem_nil, or_false] at hf
  rcases hf with rfl | rfl | rfl | rfl | rfl | rfl | rfl | rfl | rfl
  · exact Option.noConfusion (hc ▸ hnone)
  · exact Option.noConfusion (hn ▸ hnone)
  · exact Option.noConfusion (hi ▸ hnone)
  · exact Option.noConfusion (hs ▸ hnone)
  · exact Option.noConfusion (hh ▸ hnone)
  · exact Option.noConfusion (hl ▸ hnone)
  · exact Option.noConfusion (hp ▸ hnone)
  · exact Option.noConfusion (hg ▸ hnone)
  · exact Option.noConfusion (hd ▸ hnone)

/-- Witness for C9: a form carrying every field but instructor makes the
POST handler raise a KeyError instead of producing a result. -/
theorem C9_witness :
    (∃ f ∈ fieldNames, formMissingInstructor.lookup f = none) ∧
    ∃ k, add_course Method.POST formMissingInstructor (storedState []) =
      Except.error (PyError.keyError k) :=
  ⟨by decide, C9_missing_form_key formMissingInstructor (storedState []) (by decide)⟩

/-- Claim C10: validation only tests string truthiness, so a submission
whose required fields are all non-empty strings, whitespace-only values
included, validates as Valid and is appended to the store with those
values intact. -/
theorem C10_whitespace_valid (c : Course) (prev : List Course)
    (h : c.code ≠ "" ∧ c.name ≠ "" ∧ c.instructor ≠ "" ∧ c.semester ≠ "" ∧
         c.schedule ≠ "" ∧ c.classroom ≠ "" ∧ c.prerequisites ≠ "" ∧ c.grading ≠ "") :
    validateNewCourse c = ValidationResult.Valid ∧
    add_course Method.POST c.fields (storedState prev) =
      Except.ok ⟨storedState (prev ++ [c]),
        [("Course \x27" ++ c.code ++ "\x27 added successfully!", "success")],
        Response.redirect "course_catalog"⟩ ∧
    courseFromJson (courseToJson c) = some c := by
  have hnil : missing_fields c = [] := (missing_fields_eq_nil_iff c).mpr h
  refine ⟨(validateNewCourse_valid_iff c).mpr hnil, ?_, rfl⟩
  have hsave : save_courses (storedState prev) (courseToJson c) =
      Except.ok (storedState (prev ++ [c])) := by
    rw [save_courses_stored]
    simp [storedState]
  simp [add_course, build_course_fields, bind, Except.bind, hnil, hsave, pure, Except.pure]

/-- Witness for C10: the all-whitespace submission passes validation and
is stored with its single-space values intact. -/
theorem C10_witness :
    (spaceCourse.code ≠ "" ∧ spaceCourse.name ≠ "" ∧ spaceCourse.instructor ≠ "" ∧
     spaceCourse.semester ≠ "" ∧ spaceCourse.schedule ≠ "" ∧ spaceCourse.classroom ≠ "" ∧
     spaceCourse.prerequisites ≠ "" ∧ spaceCourse.grading ≠ "") ∧
    (validateNewCourse spaceCourse = ValidationResult.Valid ∧
     add_course Method.POST spaceCourse.fields (storedState []) =
       Except.ok ⟨storedState [spaceCourse],
         [("Course \x27" ++ spaceCourse.code ++ "\x27 added successfully!", "success")],
         Response.redirect "course_catalog"⟩ ∧
     courseFromJson (courseToJson spaceCourse) = some spaceCourse) :=
  ⟨by decide, by
    have hmain := C10_whitespace_valid spaceCourse [] (by decide)
    simpa using hmain⟩

end CourseApp
